import Mathlib

/-!
# Verification of the vitamin-dispenser event-derivation and recommendation core

Shallow embedding of the core logic of `inuteam04/vitamin-dispenser`:

* the sensor event deriver and system status classifiers
  (`src/app/dashboard/page.tsx`),
* the requirement estimator, nutrient comparator, intake aggregator and
  pill recommendation engine (`src/app/analyse/page.tsx`).

Numbers are modelled as `ℚ` (the source uses JS numbers; every constant and
comparison in the embedded code is exact on rationals), pill counts as `ℤ`.
JS `Math.round` is half-up rounding, modelled by `jsRound`.
Fields that the source reads through `?? 0` (optional at runtime via the
realtime store) are modelled as `Option ℚ`.  Event `id`, `message` and
`timestamp` are wall-clock/rendering concerns (`Date.now()`, Korean message
templates) and are omitted from the event model; the structured `data`
payload, which carries every numeric fact of an event, is kept.
-/

/-- JS `Math.round`: round half toward positive infinity. -/
def jsRound (x : ℚ) : ℤ := ⌊x + 1/2⌋

/-- One sensor snapshot as consumed by the dashboard deriver
(`src/app/dashboard/page.tsx`, first `DashboardContent` variant):
three per-bottle pill counts, one shared temperature/humidity sensor,
dispensing and fan flags.  `temparature` keeps the source's spelling. -/
structure SensorData where
  temparature : Option ℚ
  humidity : Option ℚ
  bottle1Count : ℤ
  bottle2Count : ℤ
  bottle3Count : ℤ
  lastDispensed : ℤ
  isDispensing : Bool
  fanStatus : Bool
  timestamp : ℤ
  deriving DecidableEq, Repr

/-- Activity event kinds (`ActivityEventType` in `src/lib/types.ts`),
restricted to the kinds the deriver emits. -/
inductive ActivityEventType where
  | pill_dispensed
  | fan_on
  | fan_off
  | temp_warning
  | temp_critical
  | humidity_warning
  | pill_low
  deriving DecidableEq, Repr

/-- The structured `data` payload of an activity event: the source attaches
a per-kind record (`{ bottleId, count }`, `{ temperature }`, `{ humidity }`,
`{ bottleId, pillCount }`); modelled as one record of optional fields. -/
structure EventData where
  bottleId : Option ℤ := none
  count : Option ℤ := none
  temperature : Option ℚ := none
  humidity : Option ℚ := none
  pillCount : Option ℤ := none
  deriving DecidableEq, Repr

/-- An activity event: kind plus structured payload. -/
structure ActivityEvent where
  type : ActivityEventType
  data : EventData
  deriving DecidableEq, Repr

/-- The temperature a snapshot exposes to the threshold rules
(`sensorData.temparature ?? 0`). -/
def tempOf (s : SensorData) : ℚ := s.temparature.getD 0

/-- Observer: is this event a TempCritical event? -/
def isTempCritical (e : ActivityEvent) : Bool := e.type == .temp_critical

/-- Observer: is this event a PillLow event for bottle `b`? -/
def isPillLowFor (b : ℤ) (e : ActivityEvent) : Bool :=
  e.type == .pill_low && e.data.bottleId == some b

/-- The pill count of bottle `b` (1, 2 or 3) in a snapshot. -/
def bottleCount (b : ℤ) (s : SensorData) : ℤ :=
  if b = 1 then s.bottle1Count
  else if b = 2 then s.bottle2Count
  else s.bottle3Count

/-- Dispense detection for bottle `b` (the three per-bottle blocks
"Bottle n 배출 감지" of the sensor-change effect): a drop in the bottle's
count emits one PillDispensed event with the dispensed delta. -/
def bottleDispensedEvents (b : ℤ) (prevData sensorData : SensorData) : List ActivityEvent :=
  if bottleCount b sensorData < bottleCount b prevData then
    [{ type := .pill_dispensed,
       data := { bottleId := some b,
                 count := some (bottleCount b prevData - bottleCount b sensorData) } }]
  else []

/-- Fan toggle detection ("팬 상태 변화 감지"): a change of `fanStatus`
emits FanOn or FanOff, carrying the current temperature (`?? 0`). -/
def fanEvents (prevData sensorData : SensorData) : List ActivityEvent :=
  if sensorData.fanStatus != prevData.fanStatus then
    let temp := sensorData.temparature.getD 0
    if sensorData.fanStatus = true then
      [{ type := .fan_on, data := { temperature := some temp } }]
    else
      [{ type := .fan_off, data := { temperature := some temp } }]
  else []

/-- Temperature rules ("온도 경고"): crossing above 35° emits TempCritical,
else crossing into the (30, 35] band from ≤30 emits TempWarning. -/
def tempEvents (prevData sensorData : SensorData) : List ActivityEvent :=
  let currentTemp := sensorData.temparature.getD 0
  let prevTemp := prevData.temparature.getD 0
  if currentTemp > 35 ∧ prevTemp ≤ 35 then
    [{ type := .temp_critical, data := { temperature := some currentTemp } }]
  else if currentTemp > 30 ∧ currentTemp ≤ 35 ∧ prevTemp ≤ 30 then
    [{ type := .temp_warning, data := { temperature := some currentTemp } }]
  else []

/-- Humidity rule ("습도 경고"): crossing above 70% emits HumidityWarning. -/
def humidityEvents (prevData sensorData : SensorData) : List ActivityEvent :=
  let currentHumidity := sensorData.humidity.getD 0
  let prevHumidity := prevData.humidity.getD 0
  if currentHumidity > 70 ∧ prevHumidity ≤ 70 then
    [{ type := .humidity_warning, data := { humidity := some currentHumidity } }]
  else []

/-- The PillLow event record the low-stock rule builds:
`data: { bottleId: b, pillCount: remaining }`. -/
def pillLowEvent (b remaining : ℤ) : ActivityEvent :=
  { type := .pill_low, data := { bottleId := some b, pillCount := some remaining } }

/-- Low-stock rule for bottle `b` ("Bottle n 약 부족 경고"): the count
crossing from ≥5 down below 5 emits PillLow with the remaining count. -/
def bottleLowEvents (b : ℤ) (prevData sensorData : SensorData) : List ActivityEvent :=
  if bottleCount b sensorData < 5 ∧ bottleCount b prevData ≥ 5 then
    [pillLowEvent b (bottleCount b sensorData)]
  else []

/-- The sensor event deriver: the body of the sensor-change effect in
`src/app/dashboard/page.tsx` (lines 277–420), as the pure transition
function `derive(previous, current)`.  On first load (`previous = null`)
no events are produced; otherwise the nine rule blocks run in source
order: per-bottle dispense detection, fan toggle, temperature (critical
else warning), humidity, per-bottle low stock. -/
def derive : Option SensorData → SensorData → List ActivityEvent
  | none, _ => []
  | some prevData, sensorData =>
    bottleDispensedEvents 1 prevData sensorData ++
    bottleDispensedEvents 2 prevData sensorData ++
    bottleDispensedEvents 3 prevData sensorData ++
    fanEvents prevData sensorData ++
    tempEvents prevData sensorData ++
    humidityEvents prevData sensorData ++
    bottleLowEvents 1 prevData sensorData ++
    bottleLowEvents 2 prevData sensorData ++
    bottleLowEvents 3 prevData sensorData

/-- Repeated invocation of the deriver, as the caller performs it: after
each call the current snapshot becomes the `previousDataRef` for the next
call; the emitted events of all calls are collected. -/
def deriveSeq (prev : Option SensorData) : List SensorData → List ActivityEvent
  | [] => []
  | cur :: rest => derive prev cur ++ deriveSeq (some cur) rest

/-- A concrete sample snapshot used by witnesses: temperature `t`,
bottle-1 count `b1`, everything else at the dashboard's defaults. -/
def sampleSnap (t : ℚ) (b1 : ℤ) : SensorData :=
  { temparature := some t
    humidity := some 50
    bottle1Count := b1
    bottle2Count := 18
    bottle3Count := 6
    lastDispensed := 0
    isDispensing := false
    fanStatus := false
    timestamp := 0 }

lemma countP_bottleDispensedEvents (p : ActivityEvent → Bool)
    (hp : ∀ e, e.type = .pill_dispensed → p e = false)
    (b : ℤ) (prevData sensorData : SensorData) :
    List.countP p (bottleDispensedEvents b prevData sensorData) = 0 := by
  unfold bottleDispensedEvents
  split <;> simp_all [List.countP_cons, hp]

lemma countP_fanEvents (p : ActivityEvent → Bool)
    (hon : ∀ e, e.type = .fan_on → p e = false)
    (hoff : ∀ e, e.type = .fan_off → p e = false)
    (prevData sensorData : SensorData) :
    List.countP p (fanEvents prevData sensorData) = 0 := by
  unfold fanEvents
  split
  · split <;> simp_all [List.countP_cons, hon, hoff]
  · rfl

lemma countP_humidityEvents (p : ActivityEvent → Bool)
    (hp : ∀ e, e.type = .humidity_warning → p e = false)
    (prevData sensorData : SensorData) :
    List.countP p (humidityEvents prevData sensorData) = 0 := by
  unfold humidityEvents
  dsimp only
  split <;> simp_all [List.countP_cons, hp]

lemma countP_bottleLowEvents (p : ActivityEvent → Bool)
    (hp : ∀ e, e.type = .pill_low → p e = false)
    (b : ℤ) (prevData sensorData : SensorData) :
    List.countP p (bottleLowEvents b prevData sensorData) = 0 := by
  unfold bottleLowEvents
  split <;> simp_all [List.countP_cons, pillLowEvent, hp]

lemma countP_tempEvents_critical (prevData sensorData : SensorData) :
    List.countP isTempCritical (tempEvents prevData sensorData) =
      if 35 < tempOf sensorData ∧ tempOf prevData ≤ 35 then 1 else 0 := by
  unfold tempEvents
  dsimp only
  simp only [tempOf]
  by_cases hc : 35 < sensorData.temparature.getD 0 ∧ prevData.temparature.getD 0 ≤ 35
  · rw [if_pos hc, if_pos hc]
    simp [List.countP_cons, isTempCritical]
  · rw [if_neg hc, if_neg hc]
    split
    · simp [List.countP_cons, isTempCritical]
    · rfl

/-- Per call, the deriver emits a TempCritical event exactly when the
temperature newly crosses the 35° threshold, and then exactly one. -/
lemma countP_derive_tempCritical (prev cur : SensorData) :
    List.countP isTempCritical (derive (some prev) cur) =
      if 35 < tempOf cur ∧ tempOf prev ≤ 35 then 1 else 0 := by
  have hd : ∀ e : ActivityEvent, e.type = .pill_dispensed → isTempCritical e = false := by
    intro e he; simp [isTempCritical, he]
  have hon : ∀ e : ActivityEvent, e.type = .fan_on → isTempCritical e = false := by
    intro e he; simp [isTempCritical, he]
  have hoff : ∀ e : ActivityEvent, e.type = .fan_off → isTempCritical e = false := by
    intro e he; simp [isTempCritical, he]
  have hh : ∀ e : ActivityEvent, e.type = .humidity_warning → isTempCritical e = false := by
    intro e he; simp [isTempCritical, he]
  have hl : ∀ e : ActivityEvent, e.type = .pill_low → isTempCritical e = false := by
    intro e he; simp [isTempCritical, he]
  simp [derive, List.countP_append, countP_bottleDispensedEvents _ hd,
    countP_fanEvents _ hon hoff, countP_humidityEvents _ hh,
    countP_bottleLowEvents _ hl, countP_tempEvents_critical]

/-- Once the previous snapshot is already above 35°, a whole run of
further snapshots above 35° emits no TempCritical event at all. -/
lemma countP_deriveSeq_tempCritical_zero (s0 : SensorData) (l : List SensorData)
    (h0 : 35 < tempOf s0) (hl : ∀ s ∈ l, 35 < tempOf s) :
    List.countP isTempCritical (deriveSeq (some s0) l) = 0 := by
  induction l generalizing s0 with
  | nil => rfl
  | cons c rest ih =>
    have hc : 35 < tempOf c := hl c (by simp)
    simp only [deriveSeq, List.countP_append]
    rw [countP_derive_tempCritical, ih c hc (fun s hs => hl s (by simp [hs]))]
    simp [not_le.mpr h0]

lemma countP_tempEvents (p : ActivityEvent → Bool)
    (h1 : ∀ e, e.type = .temp_critical → p e = false)
    (h2 : ∀ e, e.type = .temp_warning → p e = false)
    (prevData sensorData : SensorData) :
    List.countP p (tempEvents prevData sensorData) = 0 := by
  unfold tempEvents
  dsimp only
  split_ifs <;> simp_all [List.countP_cons, h1, h2]

lemma countP_bottleLowEvents_self (b b' : ℤ) (prevData sensorData : SensorData) :
    List.countP (isPillLowFor b) (bottleLowEvents b' prevData sensorData) =
      if b = b' ∧ bottleCount b' sensorData < 5 ∧ 5 ≤ bottleCount b' prevData then 1
      else 0 := by
  unfold bottleLowEvents
  by_cases hcond : bottleCount b' sensorData < 5 ∧ bottleCount b' prevData ≥ 5
  · rw [if_pos hcond]
    by_cases hb : b = b'
    · subst hb
      rw [if_pos ⟨rfl, hcond.1, hcond.2⟩]
      simp [List.countP_cons, isPillLowFor, pillLowEvent]
    · rw [if_neg (by tauto)]
      simp [List.countP_cons, isPillLowFor, pillLowEvent, Ne.symm hb]
  · rw [if_neg (by tauto), if_neg (by tauto)]
    rfl

/-- Per call, the deriver emits a PillLow event for bottle `b` exactly when
that bottle's count crosses from ≥5 to <5, and then exactly one. -/
lemma countP_derive_pillLow (b : ℤ) (hb : b = 1 ∨ b = 2 ∨ b = 3)
    (prev cur : SensorData) :
    List.countP (isPillLowFor b) (derive (some prev) cur) =
      if bottleCount b cur < 5 ∧ 5 ≤ bottleCount b prev then 1 else 0 := by
  have hd : ∀ e : ActivityEvent, e.type = .pill_dispensed → isPillLowFor b e = false := by
    intro e he; simp [isPillLowFor, he]
  have hon : ∀ e : ActivityEvent, e.type = .fan_on → isPillLowFor b e = false := by
    intro e he; simp [isPillLowFor, he]
  have hoff : ∀ e : ActivityEvent, e.type = .fan_off → isPillLowFor b e = false := by
    intro e he; simp [isPillLowFor, he]
  have hc : ∀ e : ActivityEvent, e.type = .temp_critical → isPillLowFor b e = false := by
    intro e he; simp [isPillLowFor, he]
  have hw : ∀ e : ActivityEvent, e.type = .temp_warning → isPillLowFor b e = false := by
    intro e he; simp [isPillLowFor, he]
  have hh : ∀ e : ActivityEvent, e.type = .humidity_warning → isPillLowFor b e = false := by
    intro e he; simp [isPillLowFor, he]
  simp only [derive, List.countP_append, countP_bottleDispensedEvents _ hd,
    countP_fanEvents _ hon hoff, countP_tempEvents _ hc hw,
    countP_humidityEvents _ hh, countP_bottleLowEvents_self]
  rcases hb with rfl | rfl | rfl <;> norm_num

/-- When bottle `b` crosses below 5, the emitted PillLow event carries the
remaining count of that bottle. -/
lemma pillLow_event_mem_derive (b : ℤ) (hb : b = 1 ∨ b = 2 ∨ b = 3)
    (prev cur : SensorData) (h1 : bottleCount b cur < 5) (h2 : 5 ≤ bottleCount b prev) :
    pillLowEvent b (bottleCount b cur) ∈ derive (some prev) cur := by
  have hmem : pillLowEvent b (bottleCount b cur) ∈ bottleLowEvents b prev cur := by
    unfold bottleLowEvents
    rw [if_pos ⟨h1, h2⟩]
    exact List.mem_singleton_self _
  rcases hb with rfl | rfl | rfl <;>
    · simp only [derive, List.mem_append]
      tauto

/-- C1: the deriver emits TempCritical exactly when the temperature newly
crosses the 35° threshold (`current > 35 && previous <= 35`), and for a run
of snapshots whose temperatures are all above 35° after the crossing,
repeated invocation emits TempCritical exactly once, never again while the
temperature stays above 35. -/
theorem C1_tempCritical_emitted_exactly_on_crossing :
    (∀ prev cur : SensorData,
        List.countP isTempCritical (derive (some prev) cur) =
          if 35 < tempOf cur ∧ tempOf prev ≤ 35 then 1 else 0) ∧
    (∀ (s0 : SensorData) (l : List SensorData),
        tempOf s0 ≤ 35 → (∀ s ∈ l, 35 < tempOf s) → l ≠ [] →
        List.countP isTempCritical (deriveSeq (some s0) l) = 1) := by
  refine ⟨countP_derive_tempCritical, ?_⟩
  intro s0 l h0 hl hne
  cases l with
  | nil => exact absurd rfl hne
  | cons c rest =>
    have hc : 35 < tempOf c := hl c (by simp)
    simp only [deriveSeq, List.countP_append]
    rw [countP_derive_tempCritical,
      countP_deriveSeq_tempCritical_zero c rest hc (fun s hs => hl s (by simp [hs]))]
    simp [hc, h0]

/-- Witness for C1 at a concrete run: temperature 30° → 36° → 37° emits
exactly one TempCritical event over the two calls. -/
theorem C1_tempCritical_witness :
    List.countP isTempCritical
      (deriveSeq (some (sampleSnap 30 18)) [sampleSnap 36 18, sampleSnap 37 18]) = 1 :=
  C1_tempCritical_emitted_exactly_on_crossing.2 (sampleSnap 30 18)
    [sampleSnap 36 18, sampleSnap 37 18] (by decide) (by decide) (by decide)

/-- C2: with no previous snapshot (the very first observation), the deriver
produces zero activity events, for every snapshot. -/
theorem C2_first_observation_emits_nothing : ∀ s : SensorData, derive none s = [] :=
  fun _ => rfl

/-- C6: for every bottle, the deriver emits a PillLow event exactly when
that bottle's pill count crosses from ≥5 to <5, and when it does the event
carries the remaining count; concretely, the run `bottle1Count : 6 → 4 → 3`
emits exactly one PillLow for bottle 1 (with remaining count 4) on the
first transition and none on the second. -/
theorem C6_pillLow_emitted_exactly_on_crossing :
    (∀ (b : ℤ), b = 1 ∨ b = 2 ∨ b = 3 → ∀ prev cur : SensorData,
        List.countP (isPillLowFor b) (derive (some prev) cur) =
          if bottleCount b cur < 5 ∧ 5 ≤ bottleCount b prev then 1 else 0) ∧
    (∀ (b : ℤ), b = 1 ∨ b = 2 ∨ b = 3 → ∀ prev cur : SensorData,
        bottleCount b cur < 5 → 5 ≤ bottleCount b prev →
        pillLowEvent b (bottleCount b cur) ∈ derive (some prev) cur) ∧
    List.countP (isPillLowFor 1)
      (deriveSeq (some (sampleSnap 25 6)) [sampleSnap 25 4, sampleSnap 25 3]) = 1 ∧
    pillLowEvent 1 4 ∈ derive (some (sampleSnap 25 6)) (sampleSnap 25 4) := by
  refine ⟨fun b hb prev cur => countP_derive_pillLow b hb prev cur,
    fun b hb prev cur h1 h2 => pillLow_event_mem_derive b hb prev cur h1 h2, ?_, by decide⟩
  decide

/-- Witness for C6 at a concrete transition: bottle 1 going 6 → 4 emits
exactly one PillLow, carrying remaining count 4. -/
theorem C6_pillLow_witness :
    List.countP (isPillLowFor 1)
        (derive (some (sampleSnap 25 6)) (sampleSnap 25 4)) = 1 ∧
    pillLowEvent 1 4 ∈ derive (some (sampleSnap 25 6)) (sampleSnap 25 4) := by
  constructor
  · rw [C6_pillLow_emitted_exactly_on_crossing.1 1 (Or.inl rfl)
      (sampleSnap 25 6) (sampleSnap 25 4)]
    decide
  · have h := C6_pillLow_emitted_exactly_on_crossing.2.1 1 (Or.inl rfl)
      (sampleSnap 25 6) (sampleSnap 25 4) (by decide) (by decide)
    simpa using h

/-- System states (`SystemStatus` in `src/lib/types.ts`). -/
inductive SystemStatus where
  | idle
  | dispensing
  | cooling
  | error
  | offline
  deriving DecidableEq, Repr

/-- JS comparison `x > c` on a possibly-undefined number: `undefined > c`
is false. -/
def jsGtNum (x : Option ℚ) (c : ℚ) : Bool :=
  match x with
  | some t => decide (c < t)
  | none => false

/-- The single-sensor status classifier (`getSystemStatus`,
`src/app/dashboard/page.tsx` lines 454–460): Offline, else Dispensing,
else Cooling, else Error when the shared temperature exceeds 35°, else
Idle. -/
def getSystemStatusSingle (sensorData : Option SensorData) : SystemStatus :=
  match sensorData with
  | none => .offline
  | some s =>
    if s.isDispensing then .dispensing
    else if s.fanStatus = true then .cooling
    else if jsGtNum s.temparature 35 then .error
    else .idle

/-- One per-bottle DHT reading (`dht1`/`dht2`/`dht3`). -/
structure DHTData where
  temperature : ℚ
  humidity : ℚ
  deriving DecidableEq, Repr

/-- A snapshot of the per-bottle-sensor hardware generation
(second `DashboardContent` variant of `src/app/dashboard/page.tsx`). -/
structure SensorDataDht where
  bottle1Count : ℤ
  bottle2Count : ℤ
  bottle3Count : ℤ
  dht1 : Option DHTData
  dht2 : Option DHTData
  dht3 : Option DHTData
  lastDispensed : ℤ
  isDispensing : Bool
  fanStatus : Bool
  photoDetected : Bool
  timestamp : ℤ
  deriving DecidableEq, Repr

/-- The temperature a possibly-missing DHT reading contributes
(`s.dhtN?.temperature ?? 0`). -/
def dhtTemp (d : Option DHTData) : ℚ :=
  match d with
  | some r => r.temperature
  | none => 0

/-- The per-bottle status classifier (`getSystemStatus`,
`src/app/dashboard/page.tsx` lines 1134–1146): Offline, else Dispensing,
else Cooling, else Error when the maximum bottle temperature exceeds 35°,
else Idle. -/
def getSystemStatus (sensorData : Option SensorDataDht) : SystemStatus :=
  match sensorData with
  | none => .offline
  | some s =>
    if s.isDispensing then .dispensing
    else if s.fanStatus = true then .cooling
    else
      let maxTemp := max (max (dhtTemp s.dht1) (dhtTemp s.dht2)) (dhtTemp s.dht3)
      if maxTemp > 35 then .error
      else .idle

/-- A concrete snapshot with `isDispensing = true` and all bottle
temperatures at 40°. -/
def dispensingHotSnap : SensorDataDht :=
  { bottle1Count := 18
    bottle2Count := 18
    bottle3Count := 6
    dht1 := some { temperature := 40, humidity := 50 }
    dht2 := some { temperature := 40, humidity := 50 }
    dht3 := some { temperature := 40, humidity := 50 }
    lastDispensed := 0
    isDispensing := true
    fanStatus := false
    photoDetected := false
    timestamp := 0 }

/-- C3: the status classifier is a pure function of the latest snapshot
with priority order Offline ≺ Dispensing ≺ Cooling ≺ Error ≺ Idle, first
match wins; a bottle temperature above 35° yields Error only when neither
dispensing nor cooling; a snapshot with `isDispensing = true` and 40°
classifies as Dispensing, not Error.  Stated for the per-bottle variant
(`any bottle's temperature > 35`); the single-sensor variant obeys the
same priority order with its shared temperature. -/
theorem C3_status_priority_order :
    (getSystemStatus none = .offline ∧
     (∀ s : SensorDataDht, s.isDispensing = true →
        getSystemStatus (some s) = .dispensing) ∧
     (∀ s : SensorDataDht, s.isDispensing = false → s.fanStatus = true →
        getSystemStatus (some s) = .cooling) ∧
     (∀ s : SensorDataDht, s.isDispensing = false → s.fanStatus = false →
        (35 < dhtTemp s.dht1 ∨ 35 < dhtTemp s.dht2 ∨ 35 < dhtTemp s.dht3) →
        getSystemStatus (some s) = .error) ∧
     (∀ s : SensorDataDht, s.isDispensing = false → s.fanStatus = false →
        dhtTemp s.dht1 ≤ 35 → dhtTemp s.dht2 ≤ 35 → dhtTemp s.dht3 ≤ 35 →
        getSystemStatus (some s) = .idle) ∧
     getSystemStatus (some dispensingHotSnap) = .dispensing) ∧
    (getSystemStatusSingle none = .offline ∧
     (∀ s : SensorData, s.isDispensing = true →
        getSystemStatusSingle (some s) = .dispensing) ∧
     (∀ s : SensorData, s.isDispensing = false → s.fanStatus = true →
        getSystemStatusSingle (some s) = .cooling) ∧
     (∀ s : SensorData, s.isDispensing = false → s.fanStatus = false →
        jsGtNum s.temparature 35 = true → getSystemStatusSingle (some s) = .error) ∧
     (∀ s : SensorData, s.isDispensing = false → s.fanStatus = false →
        jsGtNum s.temparature 35 = false → getSystemStatusSingle (some s) = .idle)) := by
  refine ⟨⟨rfl, ?_, ?_, ?_, ?_, by decide⟩, rfl, ?_, ?_, ?_, ?_⟩
  · intro s h; simp [getSystemStatus, h]
  · intro s h1 h2; simp [getSystemStatus, h1, h2]
  · intro s h1 h2 h3
    simp only [getSystemStatus, h1, h2, if_false, Bool.false_eq_true]
    rw [if_pos]
    simp only [gt_iff_lt, lt_max_iff]
    tauto
  · intro s h1 h2 h3 h4 h5
    simp only [getSystemStatus, h1, h2, if_false, Bool.false_eq_true]
    rw [if_neg]
    simp only [gt_iff_lt, lt_max_iff, not_or, not_lt]
    exact ⟨⟨h3, h4⟩, h5⟩
  · intro s h; simp [getSystemStatusSingle, h]
  · intro s h1 h2; simp [getSystemStatusSingle, h1, h2]
  · intro s h1 h2 h3; simp [getSystemStatusSingle, h1, h2, h3]
  · intro s h1 h2 h3; simp [getSystemStatusSingle, h1, h2, h3]

/-- Witness for C3: the dispensing-while-hot snapshot takes the Dispensing
branch of the priority order. -/
theorem C3_status_priority_witness :
    getSystemStatus (some dispensingHotSnap) = .dispensing :=
  C3_status_priority_order.1.2.1 dispensingHotSnap (by decide)

/-- User profile as typed in `src/app/analyse/page.tsx` (`UserProfile`):
every field optional; `none` covers both `undefined` and `null`. -/
structure UserProfile where
  name : Option String := none
  age : Option ℚ := none
  sex : Option String := none
  heightCm : Option ℚ := none
  weightKg : Option ℚ := none
  activityLevel : Option String := none
  diseases : List String := []
  deriving DecidableEq, Repr

/-- JS falsiness of an optional number (`!x`): missing or zero.
(`NaN`, also falsy, has no rational counterpart and is not modelled.) -/
def numFalsy (x : Option ℚ) : Bool :=
  match x with
  | none => true
  | some v => v == 0

/-- JS falsiness of an optional string (`!x`): missing or empty. -/
def strFalsy (x : Option String) : Bool :=
  match x with
  | none => true
  | some v => v == ""

/-- Rationale returned when no profile exists. -/
def noProfileReason : String := "프로필이 없어 기본값을 사용합니다."

/-- Rationale returned when the profile is present but incomplete. -/
def incompleteProfileReason : String :=
  "키/몸무게/나이 정보가 부족해 성별 기준 평균값으로 계산했습니다."

/-- Rationale returned on the Mifflin-St Jeor formula path. -/
def formulaReason : String :=
  "Mifflin-St Jeor 공식과 활동량을 이용해 계산한 예상 일일 필요 열량입니다."

/-- The activity factor lookup `activityMap[activityLevel ?? ""] ?? 1.2`:
the table maps "" and "sedentary" to 1.2, and any key outside the table
also falls back to 1.2. -/
def activityFactorOf (activityLevel : Option String) : ℚ :=
  match activityLevel.getD "" with
  | "sedentary" => 1.2
  | "light" => 1.375
  | "moderate" => 1.55
  | "active" => 1.725
  | "very_active" => 1.9
  | _ => 1.2

/-- The record returned by `estimateCalorieNeeds`. -/
structure CalorieNeeds where
  recommended : Option ℚ
  bmr : Option ℚ
  activityFactor : Option ℚ
  reason : String
  fallback : Option ℚ
  deriving DecidableEq, Repr

/-- The requirement estimator (`estimateCalorieNeeds`,
`src/app/analyse/page.tsx` lines 181–232).  No profile: null recommended,
flat 2000 fallback.  Incomplete profile (any of age/height/weight/sex
falsy): sex-based flat fallback as the recommendation, null BMR.
Otherwise: Mifflin-St Jeor BMR times the activity factor, rounded.
In the formula branch the guard guarantees every field is present, so
`getD 0` reads the actual values. -/
def estimateCalorieNeeds (profile : Option UserProfile) : CalorieNeeds :=
  match profile with
  | none =>
    { recommended := none
      bmr := none
      activityFactor := none
      reason := noProfileReason
      fallback := some 2000 }
  | some p =>
    let factor := activityFactorOf p.activityLevel
    if numFalsy p.age || numFalsy p.heightCm || numFalsy p.weightKg || strFalsy p.sex then
      let fallback : ℚ :=
        if p.sex = some "female" then 1800 else if p.sex = some "male" then 2200 else 2000
      { recommended := some fallback
        bmr := none
        activityFactor := some factor
        reason := incompleteProfileReason
        fallback := some fallback }
    else
      let base := 10 * p.weightKg.getD 0 + 6.25 * p.heightCm.getD 0 - 5 * p.age.getD 0 +
        (if p.sex = some "male" then 5 else if p.sex = some "female" then -161 else 0)
      let bmr := base
      let tdee := jsRound (bmr * factor)
      { recommended := some (tdee : ℚ)
        bmr := some ((jsRound bmr : ℤ) : ℚ)
        activityFactor := some factor
        reason := formulaReason
        fallback := none }

/-- Modelled from the spec: the Mifflin-St Jeor basal-metabolic-rate
formula as §4.3 states it, `10*weightKg + 6.25*heightCm - 5*age +
(5 if male, -161 if female, 0 otherwise)`; compared against the code's
formula branch in the C5 theorem. -/
def specMifflinBMR (age heightCm weightKg : ℚ) (sex : Option String) : ℚ :=
  10 * weightKg + 6.25 * heightCm - 5 * age +
    (if sex = some "male" then 5 else if sex = some "female" then -161 else 0)

/-- The complete profile of the spec's formula-path test vector. -/
def exampleMaleProfile : UserProfile :=
  { age := some 30
    sex := some "male"
    heightCm := some 175
    weightKg := some 70
    activityLevel := some "moderate" }

/-- A present but incomplete profile: age missing, sex female. -/
def femaleIncompleteProfile : UserProfile :=
  { age := none
    sex := some "female"
    heightCm := some 165
    weightKg := some 60
    activityLevel := some "light" }

/-- Counterexample to C4 as stated: with an absent profile the estimator
does NOT return the flat fallback as `recommended` — it returns a null
recommendation and only exposes 2000 via the `fallback` field. -/
theorem C4_fallback_counterexample :
    (estimateCalorieNeeds none).recommended = none ∧
    (estimateCalorieNeeds none).recommended ≠ some 2000 := by
  exact ⟨rfl, by simp [estimateCalorieNeeds]⟩

/-- C4 (amended): with an absent profile the estimator returns
`recommended = null`, `bmr = null`, `fallback = 2000` and the no-profile
rationale; with a present but incomplete profile (any of age, height,
weight, sex falsy) it returns the sex-based flat fallback as
`recommended` (female → 1800, male → 2200, otherwise → 2000), `bmr =
null`, and the incomplete-profile rationale, which differs from the
no-profile rationale. -/
theorem C4_fallback_selection_amended :
    ((estimateCalorieNeeds none).recommended = none ∧
     (estimateCalorieNeeds none).bmr = none ∧
     (estimateCalorieNeeds none).fallback = some 2000 ∧
     (estimateCalorieNeeds none).reason = noProfileReason) ∧
    (∀ p : UserProfile,
        (numFalsy p.age || numFalsy p.heightCm || numFalsy p.weightKg ||
          strFalsy p.sex) = true →
        (estimateCalorieNeeds (some p)).recommended =
          some (if p.sex = some "female" then 1800
                else if p.sex = some "male" then 2200 else 2000) ∧
        (estimateCalorieNeeds (some p)).bmr = none ∧
        (estimateCalorieNeeds (some p)).reason = incompleteProfileReason) ∧
    noProfileReason ≠ incompleteProfileReason := by
  refine ⟨⟨rfl, rfl, rfl, rfl⟩, ?_, by decide⟩
  intro p h
  simp [estimateCalorieNeeds, h]

/-- Witness for C4 (amended): the profile with `age = null`, `sex =
"female"` yields `recommended = 1800` and `bmr = null`. -/
theorem C4_fallback_selection_witness :
    (numFalsy femaleIncompleteProfile.age || numFalsy femaleIncompleteProfile.heightCm ||
      numFalsy femaleIncompleteProfile.weightKg || strFalsy femaleIncompleteProfile.sex)
      = true ∧
    (estimateCalorieNeeds (some femaleIncompleteProfile)).recommended = some 1800 ∧
    (estimateCalorieNeeds (some femaleIncompleteProfile)).bmr = none := by
  have h := C4_fallback_selection_amended.2.1 femaleIncompleteProfile (by decide)
  exact ⟨by decide, by simpa [femaleIncompleteProfile] using h.1, h.2.1⟩

/-- C5: on a complete profile the estimator computes the Mifflin-St Jeor
BMR exactly as the spec's formula states it, multiplies the unrounded BMR
by the activity factor, rounds half-up to get `recommended`, and clears
`fallback`; the activity-factor table is sedentary/unset → 1.2, light →
1.375, moderate → 1.55, active → 1.725, very_active → 1.9; on the spec's
test vector (30/male/175cm/70kg/moderate) the rounded BMR is 1649 and
`recommended = round(1648.75 * 1.55) = 2556`. -/
theorem C5_formula_path :
    (∀ p : UserProfile,
        numFalsy p.age = false → numFalsy p.heightCm = false →
        numFalsy p.weightKg = false → strFalsy p.sex = false →
        (estimateCalorieNeeds (some p)).bmr =
          some ((jsRound (specMifflinBMR (p.age.getD 0) (p.heightCm.getD 0)
            (p.weightKg.getD 0) p.sex) : ℤ) : ℚ) ∧
        (estimateCalorieNeeds (some p)).recommended =
          some ((jsRound (specMifflinBMR (p.age.getD 0) (p.heightCm.getD 0)
            (p.weightKg.getD 0) p.sex * activityFactorOf p.activityLevel) : ℤ) : ℚ) ∧
        (estimateCalorieNeeds (some p)).fallback = none) ∧
    (activityFactorOf (some "sedentary") = 1.2 ∧ activityFactorOf none = 1.2 ∧
     activityFactorOf (some "light") = 1.375 ∧ activityFactorOf (some "moderate") = 1.55 ∧
     activityFactorOf (some "active") = 1.725 ∧
     activityFactorOf (some "very_active") = 1.9) ∧
    (estimateCalorieNeeds (some exampleMaleProfile)).bmr = some 1649 ∧
    (estimateCalorieNeeds (some exampleMaleProfile)).recommended = some 2556 := by
  refine ⟨?_, ⟨rfl, rfl, rfl, rfl, rfl, rfl⟩, ?_, ?_⟩
  · intro p h1 h2 h3 h4
    simp [estimateCalorieNeeds, h1, h2, h3, h4, specMifflinBMR]
  · norm_num [estimateCalorieNeeds, exampleMaleProfile, numFalsy, strFalsy,
      activityFactorOf, jsRound]
    rw [if_neg (by decide)]
  · norm_num [estimateCalorieNeeds, exampleMaleProfile, numFalsy, strFalsy,
      activityFactorOf, jsRound]
    rw [if_neg (by decide)]

/-- Witness for C5 at the spec's test vector: the hypotheses (all fields
truthy) hold for `exampleMaleProfile`, and the formula path yields the
spec-side Mifflin-St Jeor value. -/
theorem C5_formula_path_witness :
    numFalsy exampleMaleProfile.age = false ∧
    (estimateCalorieNeeds (some exampleMaleProfile)).fallback = none := by
  have h := C5_formula_path.1 exampleMaleProfile (by decide) (by decide) (by decide)
    (by decide)
  exact ⟨by decide, h.2.2⟩

/-- A present profile whose age is 0 (a falsy number in JS). -/
def zeroAgeProfile : UserProfile :=
  { age := some 0
    sex := some "male"
    heightCm := some 175
    weightKg := some 70
    activityLevel := some "moderate" }

/-- C10: a zero-valued age, height or weight (or empty-string sex) in a
present profile is treated exactly like a missing field — the estimator
takes the incomplete-profile fallback path (sex-based `recommended`,
`bmr = null`) rather than the formula path, because the completeness
check uses JS truthiness. -/
theorem C10_zero_fields_take_fallback_path :
    ∀ p : UserProfile,
      p.age = some 0 ∨ p.heightCm = some 0 ∨ p.weightKg = some 0 ∨ p.sex = some "" →
      (estimateCalorieNeeds (some p)).bmr = none ∧
      (estimateCalorieNeeds (some p)).recommended =
        some (if p.sex = some "female" then 1800
              else if p.sex = some "male" then 2200 else 2000) ∧
      (estimateCalorieNeeds (some p)).reason = incompleteProfileReason := by
  intro p hp
  have h : (numFalsy p.age || numFalsy p.heightCm || numFalsy p.weightKg ||
      strFalsy p.sex) = true := by
    rcases hp with h | h | h | h <;> simp [numFalsy, strFalsy, h]
  simp [estimateCalorieNeeds, h]

/-- Witness for C10: age 0 with sex male takes the fallback path and
recommends the male flat 2200 kcal. -/
theorem C10_zero_age_witness :
    zeroAgeProfile.age = some 0 ∧
    (estimateCalorieNeeds (some zeroAgeProfile)).bmr = none ∧
    (estimateCalorieNeeds (some zeroAgeProfile)).recommended = some 2200 := by
  have h := C10_zero_fields_take_fallback_path zeroAgeProfile (Or.inl rfl)
  exact ⟨rfl, h.1, by simpa [zeroAgeProfile] using h.2.1⟩

/-- Does `pat` occur as a contiguous run inside the character list? -/
def charsContain (pat : List Char) : List Char → Bool
  | [] => pat.isEmpty
  | c :: rest => pat.isPrefixOf (c :: rest) || charsContain pat rest

/-- JS `s.includes(sub)`: substring containment. -/
def strIncludes (s sub : String) : Bool :=
  charsContain sub.toList s.toList

/-- JS `s.toLowerCase()` restricted to the ASCII range the source
compares against ("cardio", "osteo", "anemia", "iron"). -/
def jsToLower (s : String) : String :=
  String.map Char.toLower s

/-- Per-bottle pill-name configuration (`PillConfig`). -/
structure PillConfig where
  bottle1 : Option String := none
  bottle2 : Option String := none
  bottle3 : Option String := none
  deriving DecidableEq, Repr

/-- A derived per-bottle recommendation (`PillRecommendation`). -/
structure PillRecommendation where
  bottleId : ℤ
  pillName : String
  count : ℤ
  reason : String
  deriving DecidableEq, Repr

/-- The body of the `bottleNames.forEach` loop of
`computePillRecommendations` combined with `addRec`: a bottle with no
configured name (missing or empty — both JS-falsy, checked by the loop's
`if (!name) return` and again by `addRec`) contributes nothing; otherwise
one recommendation of count 1 whose justification is rewritten by the
rule cascade in encounter order, with the over-intake caution appended
last. -/
def recForBottle (ratio : ℚ) (hasHeartIssue hasBoneIssue hasAnemia : Bool)
    (id : ℤ) (name : Option String) : List PillRecommendation :=
  match name with
  | none => []
  | some name =>
    if name = "" then []
    else
      let count : ℤ := 1
      let reason0 := "일반적인 1일 권장량 기준 1정을 권장합니다."
      let reason1 :=
        if ratio < 0.8 ∧ (strIncludes name "종합비타민" || strIncludes name "비타민") then
          "오늘 전체 섭취 열량이 권장량보다 적어, 부족한 영양 보충을 위해 1정을 권장합니다."
        else reason0
      let reason2 :=
        if hasHeartIssue ∧ strIncludes name "오메가" then
          "심혈관 건강 관련 질환이 선택되어 있어, 오메가3 1정을 보조용으로 권장합니다."
        else reason1
      let reason3 :=
        if hasBoneIssue ∧ strIncludes name "비타민 D" then
          "뼈 건강 관련 질환이 선택되어 있어, 비타민 D 1정을 보조용으로 권장합니다."
        else reason2
      let reason4 :=
        if hasAnemia ∧ (strIncludes name "철분" || strIncludes (jsToLower name) "iron") then
          "빈혈 관련 질환이 선택되어 있어, 철분 1정을 보조용으로 권장합니다."
        else reason3
      let reason5 :=
        if ratio > 1.2 then
          reason4 ++ " (※ 오늘 섭취 열량이 권장량보다 높은 편이라, 추가 영양제 섭취는 과하지 않도록 주의하세요.)"
        else reason4
      [{ bottleId := id, pillName := name, count := count, reason := reason5 }]

/-- The pill recommendation engine (`computePillRecommendations`,
`src/app/analyse/page.tsx` lines 234–322): effective requirement is
`recommended ?? fallback ?? 2000`; `ratio = totalCalories / requirement`
when both sides are positive, else 1; disease flags are substring tests
over the selected disease labels; then one pass over the three bottles. -/
def computePillRecommendations (totalCalories : ℚ) (calorieNeeds : CalorieNeeds)
    (selectedDiseases : List String) (pillConfig : Option PillConfig) :
    List PillRecommendation :=
  match pillConfig with
  | none => []
  | some pillConfig =>
    let recommended := calorieNeeds.recommended.getD (calorieNeeds.fallback.getD 2000)
    let ratio := if 0 < totalCalories ∧ 0 < recommended then totalCalories / recommended else 1
    let hasHeartIssue := selectedDiseases.any fun d =>
      strIncludes d "심혈관" || strIncludes d "고지혈" || strIncludes (jsToLower d) "cardio"
    let hasBoneIssue := selectedDiseases.any fun d =>
      strIncludes d "골다공" || strIncludes d "뼈" || strIncludes (jsToLower d) "osteo"
    let hasAnemia := selectedDiseases.any fun d =>
      strIncludes d "빈혈" || strIncludes (jsToLower d) "anemia"
    recForBottle ratio hasHeartIssue hasBoneIssue hasAnemia 1 pillConfig.bottle1 ++
    recForBottle ratio hasHeartIssue hasBoneIssue hasAnemia 2 pillConfig.bottle2 ++
    recForBottle ratio hasHeartIssue hasBoneIssue hasAnemia 3 pillConfig.bottle3

/-- The configured name of bottle `b` (1, 2 or 3). -/
def bottleNameOf (cfg : PillConfig) (b : ℤ) : Option String :=
  if b = 1 then cfg.bottle1 else if b = 2 then cfg.bottle2 else cfg.bottle3

lemma recForBottle_sound (ratio : ℚ) (h1 h2 h3 : Bool) (id : ℤ) (name : Option String) :
    ∀ r ∈ recForBottle ratio h1 h2 h3 id name,
      r.count = 1 ∧ r.bottleId = id ∧ name = some r.pillName ∧ r.pillName ≠ "" := by
  intro r hr
  match name with
  | none => simp [recForBottle] at hr
  | some n =>
    by_cases hn : n = ""
    · simp [recForBottle, hn] at hr
    · simp only [recForBottle, if_neg hn, List.mem_singleton] at hr
      subst hr
      exact ⟨rfl, rfl, rfl, hn⟩

/-- C7: for every input, every recommendation the engine produces has
count exactly 1, and belongs to a bottle whose configured pill name is
present and non-empty (bottles with no configured name never appear). -/
theorem C7_recommendations_skip_unnamed_and_count_one :
    ∀ (totalCalories : ℚ) (needs : CalorieNeeds) (diseases : List String)
      (config : Option PillConfig),
      ∀ r ∈ computePillRecommendations totalCalories needs diseases config,
        r.count = 1 ∧
        ∃ cfg, config = some cfg ∧ bottleNameOf cfg r.bottleId = some r.pillName ∧
          r.pillName ≠ "" := by
  intro totalCalories needs diseases config r hr
  match config with
  | none => simp [computePillRecommendations] at hr
  | some cfg =>
    simp only [computePillRecommendations, List.mem_append] at hr
    rcases hr with (hr | hr) | hr <;>
      obtain ⟨hcount, hid, hname, hne⟩ := recForBottle_sound _ _ _ _ _ _ r hr <;>
      exact ⟨hcount, cfg, rfl, by rw [hid]; simpa [bottleNameOf] using hname, hne⟩

/-- A configuration with bottle 1 named, bottle 2 empty, bottle 3 unset. -/
def samplePillConfig : PillConfig :=
  { bottle1 := some "비타민 C", bottle2 := some "", bottle3 := none }

/-- The recommendation the engine produces for `samplePillConfig` with
zero intake and no profile or diseases. -/
def sampleRec : PillRecommendation :=
  { bottleId := 1
    pillName := "비타민 C"
    count := 1
    reason := "일반적인 1일 권장량 기준 1정을 권장합니다." }

/-- Witness for C7: on a concrete run the engine emits only the bottle-1
recommendation (bottles 2 and 3 are skipped), with count 1 and the
configured name. -/
theorem C7_recommendations_witness :
    computePillRecommendations 0 (estimateCalorieNeeds none) [] (some samplePillConfig) =
      [sampleRec] ∧
    sampleRec.count = 1 ∧
    ∃ cfg, (some samplePillConfig : Option PillConfig) = some cfg ∧
      bottleNameOf cfg sampleRec.bottleId = some sampleRec.pillName ∧
      sampleRec.pillName ≠ "" := by
  have heval : computePillRecommendations 0 (estimateCalorieNeeds none) []
      (some samplePillConfig) = [sampleRec] := by
    norm_num [computePillRecommendations, recForBottle, estimateCalorieNeeds,
      samplePillConfig, sampleRec]
    decide
  refine ⟨heval, ?_, ?_⟩
  · exact (C7_recommendations_skip_unnamed_and_count_one 0 (estimateCalorieNeeds none)
      [] (some samplePillConfig) sampleRec (by rw [heval]; exact List.mem_singleton_self _)).1
  · exact (C7_recommendations_skip_unnamed_and_count_one 0 (estimateCalorieNeeds none)
      [] (some samplePillConfig) sampleRec (by rw [heval]; exact List.mem_singleton_self _)).2

/-- Nutrient keys (`NutrientKey`). -/
inductive NutrientKey where
  | kcal
  | carb
  | protein
  | fat
  deriving DecidableEq, Repr

/-- A `{kcal, carb, protein, fat}` tuple (`Nutrition`). -/
structure Nutrition where
  kcal : ℚ
  carb : ℚ
  protein : ℚ
  fat : ℚ
  deriving DecidableEq, Repr

/-- Record indexing `n[key]` for a nutrition tuple. -/
def nutrientValue (n : Nutrition) : NutrientKey → ℚ
  | .kcal => n.kcal
  | .carb => n.carb
  | .protein => n.protein
  | .fat => n.fat

/-- One row of the per-nutrient statistics (`NutrientStat`); `percent`
is the result of `Math.round`, hence an integer. -/
structure NutrientStat where
  key : NutrientKey
  label : String
  required : ℚ
  intake : ℚ
  percent : ℤ
  deriving DecidableEq, Repr

/-- The item list `items` of `buildNutrientStats`. -/
def nutrientItems : List (NutrientKey × String) :=
  [(.kcal, "열량"), (.carb, "탄수화물"), (.protein, "단백질"), (.fat, "지방")]

/-- The nutrient comparator (`buildNutrientStats`,
`src/app/analyse/page.tsx` lines 163–177): per nutrient,
`percent = round(intake / required * 100)` when `required > 0`, else 0.
(`rda[key] ?? 0` and `intake[key] ?? 0` are the identity here: a
`Nutrition` tuple always carries all four keys.) -/
def buildNutrientStats (rda intake : Nutrition) : List NutrientStat :=
  nutrientItems.map fun kl =>
    let required := nutrientValue rda kl.1
    let taken := nutrientValue intake kl.1
    let percent : ℤ := if required > 0 then jsRound (taken / required * 100) else 0
    { key := kl.1, label := kl.2, required := required, intake := taken, percent := percent }

/-- Presentation bands for a percent-of-requirement value. -/
inductive NutrientBand where
  | deficient
  | adequate
  | excess
  deriving DecidableEq, Repr

/-- The deficiency classification the analyse page renders with
(`src/app/analyse/page.tsx` lines 1127–1129, 1179, 1208):
percent < 80 deficient, 80–120 adequate, above 120 excess. -/
def classifyPercent (p : ℤ) : NutrientBand :=
  if p < 80 then .deficient
  else if p ≤ 120 then .adequate
  else .excess

/-- The page's default requirement tuple (`userRda` with the 2000 kcal
fallback) and the end-to-end example intake of 380 kcal. -/
def fallbackRda : Nutrition := { kcal := 2000, carb := 300, protein := 55, fat := 70 }

/-- An intake tuple whose kcal total is the end-to-end example's 380. -/
def exampleIntake : Nutrition := { kcal := 380, carb := 0, protein := 0, fat := 0 }

/-- The kcal row of the end-to-end example. -/
def exampleKcalStat : NutrientStat :=
  { key := .kcal
    label := "열량"
    required := 2000
    intake := 380
    percent := 19 }

/-- C8: every stat row the comparator returns satisfies
`percent = round(intake/required*100)` when its requirement is positive
and `percent = 0` when the requirement is 0, with `required`/`intake`
taken from the corresponding tuples; on the end-to-end example (380 kcal
against the 2000 kcal fallback) the kcal row has percent 19, classified
deficient. -/
theorem C8_percent_of_requirement :
    (∀ (rda intake : Nutrition), ∀ s ∈ buildNutrientStats rda intake,
        s.required = nutrientValue rda s.key ∧
        s.intake = nutrientValue intake s.key ∧
        (0 < s.required → s.percent = jsRound (s.intake / s.required * 100)) ∧
        (s.required = 0 → s.percent = 0)) ∧
    (∃ s ∈ buildNutrientStats fallbackRda exampleIntake,
        s.key = .kcal ∧ s.percent = 19 ∧ classifyPercent s.percent = .deficient) := by
  constructor
  · intro rda intake s hs
    simp only [buildNutrientStats, nutrientItems, List.map_cons, List.map_nil,
      List.mem_cons, List.not_mem_nil, or_false] at hs
    rcases hs with h | h | h | h <;> subst h <;>
      refine ⟨rfl, rfl, fun hpos => ?_, fun hzero => ?_⟩ <;>
      simp_all
  · refine ⟨exampleKcalStat, ?_, rfl, rfl, rfl⟩
    have : jsRound ((380 : ℚ) / 2000 * 100) = 19 := by norm_num [jsRound]
    simp [buildNutrientStats, nutrientItems, nutrientValue, fallbackRda, exampleIntake,
      exampleKcalStat, this]

/-- Witness for C8: the kcal row of the end-to-end example is in the
comparator's output, its requirement is positive, and its percent is the
rounded ratio (19, i.e. deficient). -/
theorem C8_percent_witness :
    (0 : ℚ) < exampleKcalStat.required ∧
    exampleKcalStat.percent =
      jsRound (exampleKcalStat.intake / exampleKcalStat.required * 100) := by
  have hmem : exampleKcalStat ∈ buildNutrientStats fallbackRda exampleIntake := by
    have : jsRound ((380 : ℚ) / 2000 * 100) = 19 := by norm_num [jsRound]
    simp [buildNutrientStats, nutrientItems, nutrientValue, fallbackRda, exampleIntake,
      exampleKcalStat, this]
  have h := (C8_percent_of_requirement.1 fallbackRda exampleIntake exampleKcalStat hmem).2.2.1
  exact ⟨by norm_num [exampleKcalStat], h (by norm_num [exampleKcalStat])⟩

/-- A food-record field: the CSV loader yields numbers or strings. -/
inductive FieldValue where
  | num : ℚ → FieldValue
  | str : String → FieldValue
  deriving DecidableEq, Repr

/-- A food record (`FoodRow`): an open key/value map with heterogeneous
keys, modelled as an association list (JS object keys are unique; lookup
takes the first match). -/
abbrev FoodRow := List (String × FieldValue)

/-- JS property access `row[key]`. -/
def rowLookup (row : FoodRow) (key : String) : Option FieldValue :=
  (row.find? fun kv => kv.1 == key).map fun kv => kv.2

def parseDigits (cs : List Char) : Option ℕ :=
  cs.foldl
    (fun acc c =>
      match acc with
      | none => none
      | some n => if c.isDigit then some (n * 10 + (c.toNat - 48)) else none)
    (some 0)

/-- `Number(v.replace(/,/g, ""))` modelled on the comma-cleaned plain
decimal literals the food CSVs contain (optional sign, digits, one
optional decimal point; empty string is 0); exotic numeric notations
(exponents, hex, Infinity) are treated as NaN, i.e. `none`. -/
def jsParseNumber (s : String) : Option ℚ :=
  let t := (s.replace "," "").trim
  if t = "" then some 0
  else
    let neg := t.startsWith "-"
    let body := if neg ∨ t.startsWith "+" then t.drop 1 else t
    let sign : ℚ := if neg then -1 else 1
    match body.splitOn "." with
    | [ip] =>
      if ip = "" then none
      else (parseDigits ip.toList).map fun n => sign * (n : ℚ)
    | [ip, fp] =>
      if ip = "" ∧ fp = "" then none
      else
        match parseDigits ip.toList, parseDigits fp.toList with
        | some n, some f => some (sign * ((n : ℚ) + (f : ℚ) / 10 ^ fp.length))
        | _, _ => none
    | _ => none

/-- `getNumberField` (`src/app/analyse/page.tsx` lines 80–91): scan the
candidate keys in order; a numeric field wins outright, a string field
wins if it parses (after comma cleaning), anything else falls through;
no candidate left yields 0. -/
def getNumberField (row : FoodRow) : List String → ℚ
  | [] => 0
  | key :: rest =>
    match rowLookup row key with
    | some (.num v) => v
    | some (.str v) =>
      match jsParseNumber v with
      | some n => n
      | none => getNumberField row rest
    | none => getNumberField row rest

/-- `getFoodKcalPer100g`: kcal per 100 g. -/
def getFoodKcalPer100g (row : FoodRow) : ℚ :=
  getNumberField row
    ["ENERGY_KCAL", "energy_kcal", "KCAL", "kcal", "열량", "열량(kcal)", "에너지(kcal)",
      "ENERGY"]

/-- `getCarbsPer100g`: carbohydrate grams per 100 g. -/
def getCarbsPer100g (row : FoodRow) : ℚ :=
  getNumberField row
    ["carbs", "Carbs", "CARBS", "carbohydrate", "Carbohydrate", "CARBOHYDRATE",
      "탄수화물(g)", "탄수화물", "carb_g", "CHO_G"]

/-- `getProteinPer100g`: protein grams per 100 g. -/
def getProteinPer100g (row : FoodRow) : ℚ :=
  getNumberField row
    ["protein", "Protein", "PROTEIN", "단백질(g)", "단백질", "protein_g", "PROT_G"]

/-- `getFatPer100g`: fat grams per 100 g. -/
def getFatPer100g (row : FoodRow) : ℚ :=
  getNumberField row
    ["fat", "Fat", "FAT", "lipid", "Lipid", "지방(g)", "지방", "fat_g", "FAT_G"]

/-- A selected food with consumed grams (`SelectedFood`). -/
structure SelectedFood where
  food : FoodRow
  grams : ℚ
  deriving DecidableEq, Repr

/-- JS `x || 0` on a number (the identity on every rational; only `NaN`,
not modelled, would differ). -/
def jsOr0 (x : ℚ) : ℚ := if x == 0 then 0 else x

/-- The rounded totals `totalNutrition` returns. -/
structure NutritionTotals where
  calories : ℚ
  carbs : ℚ
  protein : ℚ
  fat : ℚ
  deriving DecidableEq, Repr

/-- The four running accumulators of the `selectedFoods.forEach` loop. -/
structure RawTotals where
  kcal : ℚ
  carbs : ℚ
  protein : ℚ
  fat : ℚ
  deriving DecidableEq, Repr

/-- One iteration of the `forEach` loop of `totalNutrition`: scale each
per-100g value by `grams / 100` and add to the accumulators. -/
def intakeStep (acc : RawTotals) (item : SelectedFood) : RawTotals :=
  let g := jsOr0 item.grams
  let factor := g / 100
  { kcal := acc.kcal + getFoodKcalPer100g item.food * factor
    carbs := acc.carbs + getCarbsPer100g item.food * factor
    protein := acc.protein + getProteinPer100g item.food * factor
    fat := acc.fat + getFatPer100g item.food * factor }

/-- The intake aggregator (`totalNutrition`, `src/app/analyse/page.tsx`
lines 577–598): sum the scaled per-100g values over the selection, then
round for presentation (kcal to an integer, macros to one decimal). -/
def totalNutrition (selectedFoods : List SelectedFood) : NutritionTotals :=
  let t := selectedFoods.foldl intakeStep { kcal := 0, carbs := 0, protein := 0, fat := 0 }
  { calories := (jsRound t.kcal : ℚ)
    carbs := (jsRound (t.carbs * 10) : ℚ) / 10
    protein := (jsRound (t.protein * 10) : ℚ) / 10
    fat := (jsRound (t.fat * 10) : ℚ) / 10 }

/-- Observer: the kcal contribution of one entry. -/
def kcalContrib (item : SelectedFood) : ℚ :=
  getFoodKcalPer100g item.food * (jsOr0 item.grams / 100)

/-- Observer: the carb contribution of one entry. -/
def carbContrib (item : SelectedFood) : ℚ :=
  getCarbsPer100g item.food * (jsOr0 item.grams / 100)

/-- Observer: the protein contribution of one entry. -/
def proteinContrib (item : SelectedFood) : ℚ :=
  getProteinPer100g item.food * (jsOr0 item.grams / 100)

/-- Observer: the fat contribution of one entry. -/
def fatContrib (item : SelectedFood) : ℚ :=
  getFatPer100g item.food * (jsOr0 item.grams / 100)

lemma foldl_intakeStep_kcal : ∀ (l : List SelectedFood) (a : RawTotals),
    (l.foldl intakeStep a).kcal = a.kcal + (l.map kcalContrib).sum := by
  intro l
  induction l with
  | nil => intro a; simp
  | cons x xs ih =>
    intro a
    simp only [List.foldl_cons, List.map_cons, List.sum_cons, ih, intakeStep, kcalContrib]
    ring

lemma foldl_intakeStep_carbs : ∀ (l : List SelectedFood) (a : RawTotals),
    (l.foldl intakeStep a).carbs = a.carbs + (l.map carbContrib).sum := by
  intro l
  induction l with
  | nil => intro a; simp
  | cons x xs ih =>
    intro a
    simp only [List.foldl_cons, List.map_cons, List.sum_cons, ih, intakeStep, carbContrib]
    ring

lemma foldl_intakeStep_protein : ∀ (l : List SelectedFood) (a : RawTotals),
    (l.foldl intakeStep a).protein = a.protein + (l.map proteinContrib).sum := by
  intro l
  induction l with
  | nil => intro a; simp
  | cons x xs ih =>
    intro a
    simp only [List.foldl_cons, List.map_cons, List.sum_cons, ih, intakeStep,
      proteinContrib]
    ring

lemma foldl_intakeStep_fat : ∀ (l : List SelectedFood) (a : RawTotals),
    (l.foldl intakeStep a).fat = a.fat + (l.map fatContrib).sum := by
  intro l
  induction l with
  | nil => intro a; simp
  | cons x xs ih =>
    intro a
    simp only [List.foldl_cons, List.map_cons, List.sum_cons, ih, intakeStep, fatContrib]
    ring

/-- C9: the intake aggregator is order-independent — permuting the entry
list leaves the computed totals (all four nutrients) identical.  Over the
exact rationals of this embedding the totals are equal outright, which
subsumes the claim's floating-point tolerance. -/
theorem C9_aggregation_order_independent :
    ∀ l1 l2 : List SelectedFood, l1.Perm l2 → totalNutrition l1 = totalNutrition l2 := by
  intro l1 l2 hperm
  have h1 : (l1.map kcalContrib).sum = (l2.map kcalContrib).sum :=
    (hperm.map kcalContrib).sum_eq
  have h2 : (l1.map carbContrib).sum = (l2.map carbContrib).sum :=
    (hperm.map carbContrib).sum_eq
  have h3 : (l1.map proteinContrib).sum = (l2.map proteinContrib).sum :=
    (hperm.map proteinContrib).sum_eq
  have h4 : (l1.map fatContrib).sum = (l2.map fatContrib).sum :=
    (hperm.map fatContrib).sum_eq
  simp only [totalNutrition, foldl_intakeStep_kcal, foldl_intakeStep_carbs,
    foldl_intakeStep_protein, foldl_intakeStep_fat, h1, h2, h3, h4]

/-- The end-to-end example's kimchi-stew row: 40 kcal per 100 g. -/
def kimchiRow : FoodRow := [("FOOD_NM_KR", .str "김치찌개"), ("energy_kcal", .num 40)]

/-- The end-to-end example's rice row: 130 kcal per 100 g. -/
def riceRow : FoodRow := [("FOOD_NM_KR", .str "쌀밥"), ("energy_kcal", .num 130)]

/-- 300 g of kimchi stew. -/
def kimchiEntry : SelectedFood := { food := kimchiRow, grams := 300 }

/-- 200 g of rice. -/
def riceEntry : SelectedFood := { food := riceRow, grams := 200 }

/-- Witness for C9 on the end-to-end example entries: swapping the two
entries leaves the totals unchanged, and the kcal total is 380. -/
theorem C9_aggregation_witness :
    totalNutrition [kimchiEntry, riceEntry] = totalNutrition [riceEntry, kimchiEntry] ∧
    (totalNutrition [kimchiEntry, riceEntry]).calories = 380 := by
  refine ⟨C9_aggregation_order_independent [kimchiEntry, riceEntry]
    [riceEntry, kimchiEntry] (List.Perm.swap riceEntry kimchiEntry []), ?_⟩
  have e1 : getFoodKcalPer100g kimchiRow = 40 := rfl
  have e2 : getFoodKcalPer100g riceRow = 130 := rfl
  norm_num [totalNutrition, List.foldl_cons, List.foldl_nil, intakeStep, jsOr0,
    jsRound, kimchiEntry, riceEntry, e1, e2, beq_iff_eq]
